import Mathlib

/-!
Verification development for the session/authentication subsystem of the
UA1244_beta forum frontend.

The JavaScript modules under forum/frontend/src are shallowly embedded here:

* AuthContext.js (the Session Store): persisted localStorage keys
  accessToken / refreshToken / role, the in-memory isAuthenticated and role
  state, the mount effect that restores the session, the 60-second interval
  effect (Renewal Scheduler), and the login / logout / changeRole /
  refreshAuthToken operations.
* api.js (the Credential Transport): js-cookie cookies access_token /
  refresh_token, localStorage access_token / refresh_token, the axios
  request interceptor that attaches the bearer header, the refreshToken
  helper, and the axios response interceptor that retries a 401 once.
* LoginSuccess.js (the OAuth Exchange Adapter): handleGoogleLogin.

Network calls are modelled by passing the eventual outcome of the HTTP call
as an explicit argument (NetResult); functions that issue a refresh POST also
return how many such POSTs they performed, so single-flight properties can be
stated.  jwtDecode is modelled by giving each access token its decode result:
a token whose exp field is none is one on which jwtDecode throws, and the
routines that call jwtDecode without a catch return Except.error in that
case.
-/

namespace Forum

/-- An access-token string together with the result of decoding it:
exp is the decoded JWT expiry in seconds since the epoch, or none when
jwtDecode would throw on this string. -/
structure Token where
  raw : String
  exp : Option Int
deriving DecidableEq, Repr

/-- Outcome of an asynchronous HTTP call, supplied to the embedded handler:
success carries the parsed response payload. -/
inductive NetResult (α : Type)
  | success (data : α)
  | failure
deriving DecidableEq, Repr

/-! ## Session Store (AuthContext.js, second revision — the one with
refreshAuthToken, the expiry-watch interval and the jwt decode) -/

/-- The Session Store state: the three persisted localStorage keys of
AuthContext.js (accessToken, refreshToken, role) and the two in-memory
useState cells (isAuthenticated, role). -/
structure AuthState where
  accessToken : Option Token
  refreshToken : Option String
  roleKey : Option String
  isAuthenticated : Bool
  role : String
deriving DecidableEq, Repr

/-- The state at first render with empty storage: both useState defaults,
no persisted keys. -/
def authInit : AuthState :=
  { accessToken := none, refreshToken := none, roleKey := none,
    isAuthenticated := false, role := "unassigned" }

/-- login of AuthContext.js: localStorage.setItem of the accessToken key,
then setIsAuthenticated(true).  It takes the single token argument the
source takes; no other key is touched. -/
def login (st : AuthState) (token : Token) : AuthState :=
  { st with accessToken := some token, isAuthenticated := true }

/-- logout of AuthContext.js: remove the accessToken and refreshToken keys,
setIsAuthenticated(false), setRole to unassigned.  The persisted role key is
not removed by the source. -/
def logout (st : AuthState) : AuthState :=
  { st with accessToken := none, refreshToken := none,
            isAuthenticated := false, role := "unassigned" }

/-- changeRole of AuthContext.js: setRole, then persist the role key. -/
def changeRole (st : AuthState) (newRole : String) : AuthState :=
  { st with role := newRole, roleKey := some newRole }

/-- refreshAuthToken of AuthContext.js.  The body always issues exactly one
POST to /api/token/refresh/ (carrying whatever the refreshToken key holds,
possibly null); on success it persists the new access token, on any error it
calls logout.  Returns the new state and the number of refresh POSTs
issued. -/
def refreshAuthToken (st : AuthState) (net : NetResult Token) : AuthState × Nat :=
  match net with
  | .success access => ({ st with accessToken := some access }, 1)
  | .failure => (logout st, 1)

/-- The mount effect of AuthProvider (AuthContext.js lines 40-50), the
Session Store startup routine: read the accessToken key; if absent do
nothing; if present, jwtDecode it — the call is not wrapped in a catch, so
an undecodable token makes the effect raise (Except.error); otherwise logout
when the decoded expiry (in seconds) is in the past, else mark
authenticated.  now is the current time in milliseconds. -/
def restoreSession (st : AuthState) (now : Int) : Except Unit AuthState :=
  match st.accessToken with
  | none => .ok st
  | some token =>
    match token.exp with
    | none => .error ()
    | some exp =>
      if exp * 1000 < now then .ok (logout st)
      else .ok { st with isAuthenticated := true }

/-- One tick of the 60-second interval effect of AuthProvider
(AuthContext.js lines 52-64): read the accessToken key; if present,
jwtDecode it (again no catch: undecodable raises) and logout when expired;
in every other case do nothing.  The callback contains no refresh call, so
the returned count of refresh POSTs is 0 on every non-raising path. -/
def schedulerTick (st : AuthState) (now : Int) : Except Unit (AuthState × Nat) :=
  match st.accessToken with
  | none => .ok (st, 0)
  | some token =>
    match token.exp with
    | none => .error ()
    | some exp =>
      if exp * 1000 < now then .ok (logout st, 0)
      else .ok (st, 0)

/-- The AuthProvider component paired with whether the interval registered
by the scheduler effect is currently active.  setInterval runs at mount,
clearInterval only in the effect cleanup. -/
structure SchedulerComp where
  st : AuthState
  timerActive : Bool
deriving DecidableEq, Repr

/-- The scheduler effect at mount: setInterval registers the timer. -/
def schedulerMount (c : SchedulerComp) : SchedulerComp :=
  { c with timerActive := true }

/-- The scheduler effect cleanup at component teardown: clearInterval. -/
def schedulerCleanup (c : SchedulerComp) : SchedulerComp :=
  { c with timerActive := false }

/-- logout lifted to the component: the source logout touches storage and
the two useState cells only; it contains no clearInterval. -/
def compLogout (c : SchedulerComp) : SchedulerComp :=
  { c with st := logout c.st }

/-! ## Credential Transport (api.js; the revision of the api module that
carries the 401 response interceptor) -/

/-- An axios request config: method, url, body, the Authorization header
explicitly present on the config (none when the config carries no own
Authorization header), the remaining headers, and the custom retry marker
written by the response interceptor (a config without the field reads as
false). -/
structure Request where
  method : String
  url : String
  body : Option String
  auth : Option String
  otherHeaders : List (String × String)
  retryFlag : Bool
deriving DecidableEq, Repr

/-- An axios response error as seen by the response interceptor: the HTTP
status of error.response and error.config, the originating request. -/
structure AxiosError where
  status : Nat
  config : Request
deriving DecidableEq, Repr

/-- The api module state: the js-cookie cookies access_token and
refresh_token, the localStorage keys access_token and refresh_token, the
instance default header api.defaults.headers.common Authorization, and the
pending redirect target (window.location.href assignment, none when no
redirect happened). -/
structure ApiState where
  cookieAccess : Option Token
  cookieRefresh : Option String
  lsAccess : Option Token
  lsRefresh : Option String
  defaultAuth : Option String
  location : Option String
deriving DecidableEq, Repr

/-- The api module state at load: nothing stored, no default Authorization
header, no redirect. -/
def apiInit : ApiState :=
  { cookieAccess := none, cookieRefresh := none, lsAccess := none,
    lsRefresh := none, defaultAuth := none, location := none }

/-- The request interceptor of api.js (lines 13-19): read the access_token
cookie; when present, set the Authorization header of the outgoing config to
Bearer followed by it; otherwise pass the config through unchanged. -/
def requestInterceptor (st : ApiState) (req : Request) : Request :=
  match st.cookieAccess with
  | some token => { req with auth := some ("Bearer " ++ token.raw) }
  | none => req

/-- The refresh credential the refreshToken helper reads:
Cookies.get of refresh_token, falling back with the JavaScript or-operator
to localStorage.getItem of refresh_token. -/
def storedRefreshCred (st : ApiState) : Option String :=
  match st.cookieRefresh with
  | some r => some r
  | none => st.lsRefresh

/-- The refreshToken helper (api.js lines 92-109; the same function body
also appears in the api-module revision holding the response interceptor):
when no refresh credential is stored, redirect to /login and return
undefined without any POST; otherwise POST to /api/token/refresh/ — on
success store the new access token in the cookie and in localStorage and
return it, on error redirect to /login and return undefined.  The final Nat
is the number of refresh POSTs issued.  No branch removes a stored
credential or touches isAuthenticated. -/
def refreshToken (st : ApiState) (net : NetResult Token) :
    ApiState × Option Token × Nat :=
  match storedRefreshCred st with
  | none => ({ st with location := some "/login" }, none, 0)
  | some _ =>
    match net with
    | .success access =>
      ({ st with cookieAccess := some access, lsAccess := some access },
       some access, 1)
    | .failure => ({ st with location := some "/login" }, none, 1)

/-- The string interpolation Bearer followed by the returned token: a
JavaScript template literal renders undefined as the text undefined. -/
def bearerString (tok : Option Token) : String :=
  match tok with
  | some t => "Bearer " ++ t.raw
  | none => "Bearer undefined"

/-- What the response interceptor hands back to axios: either a replay of a
request through the api instance, or a rejection carrying the error
status. -/
inductive Reply
  | replay (req : Request)
  | reject (status : Nat)
deriving DecidableEq, Repr

/-- The response interceptor (the api-module revision at App.test.js lines
82-96): on a 401 whose config is not yet marked retried, mark it retried,
await refreshToken, write Bearer plus the returned value into the instance
default Authorization header, and replay the original request through the
api instance; every other error is rejected unchanged.  The Nat counts the
refresh POSTs issued while handling this one error. -/
def responseInterceptor (st : ApiState) (err : AxiosError)
    (net : NetResult Token) : ApiState × Reply × Nat :=
  if err.status = 401 ∧ err.config.retryFlag = false then
    let req := { err.config with retryFlag := true }
    let r := refreshToken st net
    let st2 := { r.1 with defaultAuth := some (bearerString r.2.1) }
    (st2, .replay req, r.2.2)
  else
    (st, .reject err.status, 0)

/-- The Authorization header a config dispatched through the api instance
effectively carries: axios merges the instance defaults into the config,
with a header already present on the config taking precedence over the
default. -/
def dispatchAuth (st : ApiState) (req : Request) : Option String :=
  match req.auth with
  | some a => some a
  | none => st.defaultAuth

/-- Sequential processing of the response-interceptor invocations for a
batch of failed requests (the client is single-threaded, so the N handlers
run one after the other); every handler that refreshes observes the same
network outcome.  Returns the final module state and the total number of
refresh POSTs issued. -/
def handleAll (st : ApiState) (errs : List AxiosError) (net : NetResult Token) :
    ApiState × Nat :=
  match errs with
  | [] => (st, 0)
  | e :: rest =>
    let r := responseInterceptor st e net
    let rec2 := handleAll r.1 rest net
    (rec2.1, r.2.2 + rec2.2)

/-! ## OAuth Exchange Adapter (LoginSuccess.js) and password login
(components/login.js) -/

/-- handleGoogleLogin of LoginSuccess.js.  Input: the code query parameter
of the redirect URL and the outcome of the POST to /api/token/oauth/, whose
success payload carries the (possibly absent) access and refresh fields.
No code: navigate to the login route with the missing_code marker and make
no call.  Exchange error: navigate with the login_failed marker.  Success
with both tokens present: write them directly to the localStorage
accessToken and refreshToken keys and navigate to /select-role — the
Session Store login is not invoked, so isAuthenticated is untouched.
Success with a token missing: nothing happens.  Returns the Session Store
state and the navigation target (none when no navigation occurred). -/
def handleGoogleLogin (st : AuthState) (code : Option String)
    (net : NetResult (Option Token × Option String)) :
    AuthState × Option String :=
  match code with
  | none => (st, some "/login?error=missing_code")
  | some _ =>
    match net with
    | .failure => (st, some "/login?error=login_failed")
    | .success pair =>
      match pair.1, pair.2 with
      | some access, some refresh =>
        ({ st with accessToken := some access, refreshToken := some refresh },
         some "/select-role")
      | _, _ => (st, none)

/-- The success branch of handleSubmitForm in components/login.js (password
login): call the Session Store login with response.data.access, then
navigate to /select-role. -/
def passwordLoginSuccess (st : AuthState) (access : Token) :
    AuthState × Option String :=
  (login st access, some "/select-role")

/-! ## Concrete fixtures used by the counterexamples and witnesses -/

/-- A well-formed access token with a far-future expiry. -/
def tokA : Token := { raw := "A", exp := some 9999999999 }

/-- A second well-formed access token, used as the refreshed token. -/
def tokB : Token := { raw := "B", exp := some 9999999999 }

/-- A stored string on which jwtDecode throws. -/
def tokBad : Token := { raw := "not.a.jwt", exp := none }

/-- A token whose decoded expiry (second 0) is already in the past at any
positive clock value. -/
def tokExpired : Token := { raw := "E", exp := some 0 }

/-- A token expiring 180 seconds after the epoch: at now = 0 ms it has
three minutes of remaining lifetime, below the five-minute low-water
mark. -/
def tok3min : Token := { raw := "T", exp := some 180 }

/-- A plain GET config with no Authorization header of its own and the
retry marker unset. -/
def reqGet : Request :=
  { method := "GET", url := "/api/startups/", body := none, auth := none,
    otherHeaders := [], retryFlag := false }

/-- A POST config with a body, no own Authorization header, retry marker
unset. -/
def reqPost : Request :=
  { method := "POST", url := "/api/messages/", body := some "hello",
    auth := none, otherHeaders := [], retryFlag := false }

/-- An api-module state holding an access-token cookie and a refresh-token
cookie, as after a successful api-module login. -/
def apiR : ApiState :=
  { apiInit with cookieAccess := some tokA, cookieRefresh := some "R" }

/-- A 401 error on the GET config, not yet retried. -/
def errFresh : AxiosError := { status := 401, config := reqGet }

/-- A 401 error on the POST config, not yet retried. -/
def errFresh2 : AxiosError := { status := 401, config := reqPost }

/-- A Session Store state holding the three-minutes-left token and a
refresh credential. -/
def st3min : AuthState :=
  { authInit with accessToken := some tok3min, refreshToken := some "R" }

/-! ## Helper lemmas -/

/-- Neither the response interceptor nor the refreshToken helper it calls
ever writes the refresh-credential cookie or its localStorage fallback. -/
lemma refreshCred_untouched (st : ApiState) (e : AxiosError) (net : NetResult Token) :
    (responseInterceptor st e net).1.cookieRefresh = st.cookieRefresh ∧
    (responseInterceptor st e net).1.lsRefresh = st.lsRefresh := by
  unfold responseInterceptor
  split
  · unfold refreshToken
    rcases h : storedRefreshCred st with _ | r
    · simp
    · cases net <;> simp
  · simp

/-- The refresh credential the refreshToken helper reads survives any pass
through the response interceptor. -/
lemma storedRefreshCred_after (st : ApiState) (e : AxiosError) (net : NetResult Token) :
    storedRefreshCred (responseInterceptor st e net).1 = storedRefreshCred st := by
  have h := refreshCred_untouched st e net
  unfold storedRefreshCred
  rw [h.1, h.2]

/-- Handling one not-yet-retried 401 while a refresh credential is stored
issues exactly one refresh POST. -/
lemma one_post_per_fresh_401 (st : ApiState) (e : AxiosError) (newTok : Token)
    (r : String) (hr : storedRefreshCred st = some r)
    (h401 : e.status = 401) (hflag : e.config.retryFlag = false) :
    (responseInterceptor st e (.success newTok)).2.2 = 1 := by
  simp [responseInterceptor, refreshToken, hr, h401, hflag]

/-! ## C4 — bearer attachment on outgoing requests -/

/-- C4 counterexample.  The claim says every outgoing request carries the
access token currently held by the Session Store — the same value the
Session Store login persisted.  Concretely: after the Session Store login
persists token A (localStorage key accessToken), a request dispatched while
the access_token cookie is empty goes out with no Authorization header at
all, because the request interceptor reads the cookie, not the Session
Store. -/
theorem C4_counterexample :
    (login authInit tokA).accessToken = some tokA ∧
    (requestInterceptor apiInit reqGet).auth = none :=
  ⟨rfl, rfl⟩

/-- C4 amended: the request interceptor attaches the access_token cookie as
a bearer header when the cookie is present and passes the config through
unchanged (hence with no Authorization header) when it is absent; the
attached value is the cookie written by the api-module login, not the
localStorage token the Session Store login persisted. -/
theorem C4_cookie_bearer (st : ApiState) (req : Request) :
    (st.cookieAccess = none → requestInterceptor st req = req) ∧
    ∀ t, st.cookieAccess = some t →
      requestInterceptor st req = { req with auth := some ("Bearer " ++ t.raw) } := by
  constructor
  · intro h
    simp [requestInterceptor, h]
  · intro t h
    simp [requestInterceptor, h]

/-- C4 witness: the amended statement evaluated on both branches — the
empty-cookie state sends the GET config unchanged, and a state whose cookie
holds token A sends it with the header Bearer A. -/
theorem C4_cookie_bearer_witness :
    requestInterceptor apiInit reqGet = reqGet ∧
    requestInterceptor apiR reqGet = { reqGet with auth := some "Bearer A" } :=
  ⟨(C4_cookie_bearer apiInit reqGet).1 rfl,
   (C4_cookie_bearer apiR reqGet).2 tokA rfl⟩

/-! ## C5 — what the Session Store login persists -/

/-- C5 counterexample.  The claim says the Session Store login persists all
supplied tokens, in particular a supplied refresh token, so that it is
available to a later refresh call.  Concretely: the source login takes only
the access token, and after calling it from empty storage the refreshToken
key and the role key are still empty — no refresh token can be supplied or
persisted through it. -/
theorem C5_counterexample :
    (login authInit tokA).refreshToken = none ∧
    (login authInit tokA).roleKey = none :=
  ⟨rfl, rfl⟩

/-- C5 amended: login takes the single access-token argument, persists it
under the accessToken key and sets isAuthenticated, and leaves the
refreshToken key, the role key and the in-memory role untouched — a refresh
token is never persisted by it. -/
theorem C5_login_access_only (st : AuthState) (t : Token) :
    login st t = { st with accessToken := some t, isAuthenticated := true } ∧
    (login st t).refreshToken = st.refreshToken ∧
    (login st t).roleKey = st.roleKey ∧
    (login st t).role = st.role :=
  ⟨rfl, rfl, rfl, rfl⟩

/-! ## C6 — session restore at startup -/

/-- C6 counterexample.  The claim says an undecodable stored access token is
absorbed as expiry: storage cleared, logged-out state, no raised error.
Concretely: restoring with an undecodable token raises (jwtDecode is called
with no catch), and the stored token is not cleared. -/
theorem C6_counterexample :
    restoreSession { authInit with accessToken := some tokBad } 0 = .error () :=
  rfl

/-- C6 amended: when the stored access token decodes to an expiry in the
past, restore logs out — the credential keys are removed and
isAuthenticated is false; when it decodes to a future expiry the session is
marked authenticated; an undecodable token makes the restore effect raise,
leaving storage unchanged, rather than being absorbed as expiry. -/
theorem C6_restore_behavior (st : AuthState) (token : Token) (now exp : Int)
    (hstore : st.accessToken = some token) :
    (token.exp = none → restoreSession st now = .error ()) ∧
    (token.exp = some exp → exp * 1000 < now →
      restoreSession st now = .ok (logout st)) ∧
    (token.exp = some exp → ¬ exp * 1000 < now →
      restoreSession st now = .ok { st with isAuthenticated := true }) := by
  refine ⟨fun h1 => ?_, fun h1 h2 => ?_, fun h1 h2 => ?_⟩
  · simp [restoreSession, hstore, h1]
  · simp [restoreSession, hstore, h1, h2]
  · simp [restoreSession, hstore, h1, h2]

/-- C6 witness: the amended statement evaluated at a stored token that
expired at second 0, restored at millisecond 1000000: the result is the
logged-out state. -/
theorem C6_restore_witness :
    restoreSession { authInit with accessToken := some tokExpired } 1000000 =
      .ok (logout { authInit with accessToken := some tokExpired }) :=
  (C6_restore_behavior _ tokExpired 1000000 0 rfl).2.1 rfl (by decide)

/-! ## C7 — the scheduler tick -/

/-- C7 counterexample.  The claim says a tick seeing remaining lifetime
below the five-minute low-water mark issues exactly one refresh and updates
the stored token.  Concretely: at now = 0 ms a stored token expiring at
second 180 has three minutes left, yet the tick leaves the state unchanged
and issues zero refresh POSTs. -/
theorem C7_counterexample :
    schedulerTick st3min 0 = .ok (st3min, 0) :=
  rfl

/-- C7 amended: on every tick, an absent token means no action; a stored
token whose decoded expiry is in the past forces logout; one with a future
expiry means no action regardless of remaining lifetime (there is no
low-water-mark branch); an undecodable token raises; and no tick ever
issues a refresh POST. -/
theorem C7_tick_behavior (st : AuthState) (token : Token) (now exp : Int) :
    (st.accessToken = none → schedulerTick st now = .ok (st, 0)) ∧
    (st.accessToken = some token → token.exp = some exp → exp * 1000 < now →
      schedulerTick st now = .ok (logout st, 0)) ∧
    (st.accessToken = some token → token.exp = some exp → ¬ exp * 1000 < now →
      schedulerTick st now = .ok (st, 0)) ∧
    (st.accessToken = some token → token.exp = none →
      schedulerTick st now = .error ()) ∧
    ∀ res, schedulerTick st now = .ok res → res.2 = 0 := by
  refine ⟨fun h1 => ?_, fun h1 h2 h3 => ?_, fun h1 h2 h3 => ?_, fun h1 h2 => ?_,
    fun res hres => ?_⟩
  · simp [schedulerTick, h1]
  · simp [schedulerTick, h1, h2, h3]
  · simp [schedulerTick, h1, h2, h3]
  · simp [schedulerTick, h1, h2]
  · unfold schedulerTick at hres
    split at hres
    · cases hres
      rfl
    · split at hres
      · cases hres
      · split at hres
        · cases hres
          rfl
        · cases hres
          rfl

/-- C7 witness: the amended statement evaluated at a stored token that
expired at second 0, ticked at millisecond 1000000: the tick forces logout
and issues zero refresh POSTs. -/
theorem C7_tick_witness :
    schedulerTick { authInit with accessToken := some tokExpired } 1000000 =
      .ok (logout { authInit with accessToken := some tokExpired }, 0) :=
  (C7_tick_behavior _ tokExpired 1000000 0).2.1 rfl rfl (by decide)

/-! ## C8 — logout -/

/-- C8 counterexample.  The claim says logout removes every persisted
credential and role key.  Concretely: from a state whose persisted role key
holds startup, logout leaves that key in place. -/
theorem C8_counterexample :
    (logout { authInit with roleKey := some "startup" }).roleKey = some "startup" :=
  rfl

/-- C8 amended: logout removes the two credential keys (accessToken and
refreshToken), sets isAuthenticated false and the in-memory role to
unassigned, leaves the persisted role key in place, and is idempotent — a
second call raises no error and produces the same state. -/
theorem C8_logout_behavior (st : AuthState) :
    (logout st).accessToken = none ∧
    (logout st).refreshToken = none ∧
    (logout st).isAuthenticated = false ∧
    (logout st).role = "unassigned" ∧
    (logout st).roleKey = st.roleKey ∧
    logout (logout st) = logout st :=
  ⟨rfl, rfl, rfl, rfl, rfl, rfl⟩

/-! ## C10 — stopping the scheduler timer -/

/-- C10 counterexample.  The claim says the interval timer is stopped
whenever the Session Store transitions to logged-out.  Concretely: from a
mounted, authenticated component, logout leaves the session logged out but
the interval still registered — the source logout contains no
clearInterval. -/
theorem C10_counterexample :
    (compLogout { st := login authInit tokA, timerActive := true }).st.isAuthenticated
      = false ∧
    (compLogout { st := login authInit tokA, timerActive := true }).timerActive
      = true :=
  ⟨rfl, rfl⟩

/-- C10 amended: the interval is cleared only by the scheduler effect
cleanup at component teardown; logout leaves the timer registration
untouched, and every tick fired after a logout finds no stored token and
leaves the logged-out state unchanged with no refresh POST. -/
theorem C10_timer_behavior (c : SchedulerComp) (now : Int) :
    (schedulerCleanup c).timerActive = false ∧
    (compLogout c).timerActive = c.timerActive ∧
    schedulerTick (logout c.st) now = .ok (logout c.st, 0) :=
  ⟨rfl, rfl, rfl⟩

/-! ## C1 — coalescing of concurrent refresh needs -/

/-- C1 counterexample.  The claim says N requests failing with 401 while no
refresh is in flight produce exactly one refresh call in total, through a
shared Pending-Refresh Guard.  Concretely: two not-yet-retried 401 failures
handled from a state holding a refresh credential produce two refresh
POSTs, not one — the interceptor calls the refresh helper unconditionally
and no guard exists anywhere in the module. -/
theorem C1_counterexample :
    (handleAll apiR [errFresh, errFresh2] (.success tokB)).2 = 2 ∧
    (handleAll apiR [errFresh, errFresh2] (.success tokB)).2 ≠ 1 := by
  refine ⟨rfl, ?_⟩
  decide

/-- C1 amended: there is no pending-refresh guard — every not-yet-retried
401 failure triggers its own refresh call, so N such failures handled while
a refresh credential is stored issue exactly N refresh POSTs in total. -/
theorem C1_refresh_per_request (st : ApiState) (errs : List AxiosError)
    (newTok : Token) (r : String) (hr : storedRefreshCred st = some r)
    (hfresh : ∀ e ∈ errs, e.status = 401 ∧ e.config.retryFlag = false) :
    (handleAll st errs (.success newTok)).2 = errs.length := by
  induction errs generalizing st with
  | nil => rfl
  | cons e rest ih =>
    have he := hfresh e (List.mem_cons_self e rest)
    have hpost := one_post_per_fresh_401 st e newTok r hr he.1 he.2
    have hcred : storedRefreshCred (responseInterceptor st e (.success newTok)).1
        = some r := by
      rw [storedRefreshCred_after, hr]
    have hrest : ∀ e2 ∈ rest, e2.status = 401 ∧ e2.config.retryFlag = false :=
      fun e2 he2 => hfresh e2 (List.mem_cons_of_mem e he2)
    show (responseInterceptor st e (.success newTok)).2.2 +
        (handleAll (responseInterceptor st e (.success newTok)).1 rest
          (.success newTok)).2 = rest.length + 1
    rw [hpost, ih _ hcred hrest]
    omega

/-- C1 witness: the amended statement evaluated on the two-failure batch —
two refresh POSTs for two failing requests. -/
theorem C1_refresh_per_request_witness :
    (handleAll apiR [errFresh, errFresh2] (.success tokB)).2
      = [errFresh, errFresh2].length :=
  C1_refresh_per_request apiR [errFresh, errFresh2] tokB "R" rfl (by decide)

/-! ## C2 — the 401 retry of the response interceptor -/

/-- C2: a 401 on a not-yet-retried config marks it retried, issues exactly
one refresh POST, and on refresh success replays the identical config
(method, url, body and headers unchanged, only the retry marker set) with
the new access token attached through the instance default Authorization
header; a 401 on an already-retried config is rejected to the caller with
no further refresh, so each originating request triggers at most one
refresh-and-retry. -/
theorem C2_single_retry (st : ApiState) (err : AxiosError) (newTok : Token)
    (r : String) (h401 : err.status = 401)
    (hr : storedRefreshCred st = some r) :
    (err.config.retryFlag = false →
      responseInterceptor st err (.success newTok) =
        ({ st with cookieAccess := some newTok, lsAccess := some newTok,
                   defaultAuth := some ("Bearer " ++ newTok.raw) },
         .replay { err.config with retryFlag := true }, 1) ∧
      (err.config.auth = none →
        dispatchAuth (responseInterceptor st err (.success newTok)).1
            { err.config with retryFlag := true }
          = some ("Bearer " ++ newTok.raw))) ∧
    (err.config.retryFlag = true →
      ∀ net, responseInterceptor st err net = (st, .reject 401, 0)) := by
  constructor
  · intro hflag
    constructor
    · simp [responseInterceptor, refreshToken, hr, h401, hflag, bearerString]
    · intro hauth
      simp [responseInterceptor, refreshToken, dispatchAuth, hr, h401, hflag,
        hauth, bearerString]
  · intro hflag net
    simp [responseInterceptor, h401, hflag]

/-- C2 witness: the theorem evaluated on a fresh 401 over the GET config
(replayed once, marked retried, dispatched with the refreshed bearer) and
on the same config already marked retried (rejected, no refresh POST). -/
theorem C2_single_retry_witness :
    responseInterceptor apiR errFresh (.success tokB) =
      ({ apiR with cookieAccess := some tokB, lsAccess := some tokB,
                   defaultAuth := some "Bearer B" },
       .replay { reqGet with retryFlag := true }, 1) ∧
    dispatchAuth (responseInterceptor apiR errFresh (.success tokB)).1
        { reqGet with retryFlag := true } = some "Bearer B" ∧
    responseInterceptor apiR
        { status := 401, config := { reqGet with retryFlag := true } }
        (.success tokB) = (apiR, .reject 401, 0) := by
  have h := C2_single_retry apiR errFresh tokB "R" rfl rfl
  have h2 := C2_single_retry apiR
    { status := 401, config := { reqGet with retryFlag := true } } tokB "R" rfl rfl
  exact ⟨(h.1 rfl).1, (h.1 rfl).2 rfl, h2.2 rfl (.success tokB)⟩

/-! ## C3 — refresh failure -/

/-- C3 counterexample.  The claim says every refresh failure, whichever
component triggered it, removes all persisted credential keys and leaves
the session logged out.  Concretely: when the api-module refreshToken
helper fails, it only redirects to /login — the stored access-token cookie
survives untouched. -/
theorem C3_counterexample :
    (refreshToken apiR .failure).1.cookieAccess = some tokA ∧
    (refreshToken apiR .failure).1.location = some "/login" :=
  ⟨rfl, rfl⟩

/-- C3 amended: a failure of the Session Store refreshAuthToken is terminal
— it applies logout (credential keys removed, isAuthenticated false) after
exactly one POST, with no retry; a failure of the api-module refreshToken
helper instead only redirects to /login, also after exactly one POST and
without removing any stored credential. -/
theorem C3_refresh_failure (st : AuthState) (ap : ApiState) (r : String)
    (hr : storedRefreshCred ap = some r) :
    refreshAuthToken st .failure = (logout st, 1) ∧
    refreshToken ap .failure = ({ ap with location := some "/login" }, none, 1) := by
  refine ⟨rfl, ?_⟩
  simp [refreshToken, hr]

/-- C3 witness: the amended statement evaluated at a populated Session
Store state and the cookie-holding api state. -/
theorem C3_refresh_failure_witness :
    refreshAuthToken st3min .failure = (logout st3min, 1) ∧
    refreshToken apiR .failure = ({ apiR with location := some "/login" }, none, 1) :=
  C3_refresh_failure st3min apiR "R" rfl

/-! ## C9 — OAuth exchange versus password login -/

/-- C9 counterexample.  The claim says a successful OAuth exchange feeds
the pair through the same operation password login uses, producing the same
state.  Concretely: from the same logged-out state, the OAuth success
handler leaves isAuthenticated false (it writes the storage keys directly
and never calls the Session Store login), while the password-login success
path sets it true. -/
theorem C9_counterexample :
    (handleGoogleLogin authInit (some "abc")
        (.success (some tokA, some "R"))).1.isAuthenticated = false ∧
    (passwordLoginSuccess authInit tokA).1.isAuthenticated = true :=
  ⟨rfl, rfl⟩

/-- C9 amended: on a successful exchange with both tokens present the OAuth
handler writes the pair directly to the persisted accessToken and
refreshToken keys and navigates to /select-role, leaving isAuthenticated
unchanged; the password-login success path instead goes through the Session
Store login, which sets isAuthenticated true, before the same
navigation. -/
theorem C9_oauth_direct_write (st : AuthState) (access : Token)
    (refresh c : String) :
    handleGoogleLogin st (some c) (.success (some access, some refresh)) =
      ({ st with accessToken := some access, refreshToken := some refresh },
       some "/select-role") ∧
    (handleGoogleLogin st (some c)
        (.success (some access, some refresh))).1.isAuthenticated
      = st.isAuthenticated ∧
    passwordLoginSuccess st access = (login st access, some "/select-role") ∧
    (login st access).isAuthenticated = true :=
  ⟨rfl, rfl, rfl, rfl⟩

end Forum
